import Mathlib

/-!
# Verification of the waku-rust-bindings core

Shallow embedding of the two source files of the repository:

* `src/waku/src/general/mod.rs` — the topic grammar (`Encoding`,
  `WakuContentTopic`, `WakuPubSubTopic`, their `FromStr`/`Display`/serde
  implementations) and the `JsonResponse` → `Result` adapter;
* `src/waku/src/node/mod.rs` — the node lifecycle: the process-wide
  singleton guard `WAKU_NODE_INITIALIZED`, `waku_new`, `stop_node`, and the
  typestate method sets of `WakuNodeHandle<Initialized>` /
  `WakuNodeHandle<Running>`.

The `FromStr` implementations of the two topic types use the `sscanf` crate:
`scanf!` builds an anchored regex from the format string, with each `{}`
replaced by the requested type's `RegexRepresentation` in a capture group
(lazy `.+?` for `String`, a digit run for `usize`, and — crucially — the
single word character `\w` that `general/mod.rs` line 172 declares for
`Encoding`), matches it with the regex crate's leftmost-first capture
semantics, and then runs `FromStr` on every capture; any failure makes
`scanf!` return an error.  The scanning functions below reproduce that
pipeline for the two concrete format strings of the source.
-/

namespace Waku

/-- Rust `pub type Result<T> = std::result::Result<T, String>`
(general/mod.rs line 28). -/
abbrev Result (T : Type) := Except String T

/-- `pub enum Encoding { Proto, Rlp, Rfc26 }` (general/mod.rs lines 140-145). -/
inductive Encoding where
  | Proto
  | Rlp
  | Rfc26
deriving DecidableEq

/-- `impl Display for Encoding` (general/mod.rs lines 147-156). -/
def Encoding.toString : Encoding → String
  | .Proto => "proto"
  | .Rlp => "rlp"
  | .Rfc26 => "rfc26"

/-- Rust `str::to_lowercase`, modelled character-wise (the Unicode
special mappings that expand one character into several do not produce any
of the three ASCII tokens compared against, so they cannot change any
comparison below). -/
def toLowerStr (s : String) : String := String.mk (s.data.map Char.toLower)

/-- `impl FromStr for Encoding` (general/mod.rs lines 158-169): lowercase
the input, then compare it with the three canonical tokens; the error
carries the lowercased input. -/
def Encoding.from_str (s : String) : Result Encoding :=
  if toLowerStr s = "proto" then .ok .Proto
  else if toLowerStr s = "rlp" then .ok .Rlp
  else if toLowerStr s = "rfc26" then .ok .Rfc26
  else .error ("Unrecognized encoding: " ++ toLowerStr s)

/-- A regex word character `\w` (ASCII approximation; `impl
RegexRepresentation for Encoding` at general/mod.rs lines 171-173 declares
the single-character regex `\w`). -/
def isWordChar (c : Char) : Bool := c.isAlphanum || c = '_'

/-- Match of the regex tail `(.+?)/(\w)$` against a character list: the
second capture is forced to be the final character, preceded by a literal
`/`, with a non-empty first capture before that, so the split — when it
exists — is unique and laziness plays no role. -/
def scanTail (cs : List Char) : Option (List Char × Char) :=
  match cs.reverse with
  | e :: '/' :: rest =>
      if isWordChar e && !rest.isEmpty then some (rest.reverse, e) else none
  | _ => none

/-- Match of `(\d+)/(.+?)/(\w)$` against a character list.  The digit run
is taken greedily; backtracking to a shorter run would place a digit where
the following literal `/` is required, so it never succeeds and is not
modelled. -/
def scanVersionTail (cs : List Char) : Option (List Char × List Char × Char) :=
  match cs.takeWhile Char.isDigit with
  | [] => none
  | ds =>
      match cs.dropWhile Char.isDigit with
      | '/' :: rest =>
          match scanTail rest with
          | some (c, e) => some (ds, c, e)
          | none => none
      | _ => none

/-- Leftmost-first search for the first capture of
`/(.+?)/(\d+)/(.+?)/(\w)$` after its leading `/` was consumed: the lazy
`.+?` first tries the shortest non-empty capture and extends past a `/`
only when the rest of the pattern fails there.  `acc` is the part of the
first capture read so far. -/
def findApp (acc : List Char) : List Char → Option (List Char × List Char × List Char × Char)
  | [] => none
  | '/' :: rest =>
      if acc.isEmpty then findApp (acc ++ ['/']) rest
      else
        match scanVersionTail rest with
        | some (d, c, e) => some (acc, d, c, e)
        | none => findApp (acc ++ ['/']) rest
  | ch :: rest => findApp (acc ++ [ch]) rest

/-- `scanf!(s, "/{}/{}/{}/{}", String, usize, String, Encoding)`
(general/mod.rs line 188): the whole string must match
`^/(.+?)/(\d+)/(.+?)/(\w)$`. -/
def scanContentTopic (s : String) : Option (String × List Char × String × Char) :=
  match s.data with
  | '/' :: rest =>
      match findApp [] rest with
      | some (a, d, c, e) => some (String.mk a, d, String.mk c, e)
      | none => none
  | _ => none

/-- `usize::from_str` on an all-digit capture.  (The 64-bit overflow error
of the real `usize` parse is unreachable in any observable way here: the
single-character encoding capture already makes every topic parse fail.) -/
def natOfDigits (ds : List Char) : Nat :=
  ds.foldl (fun acc c => acc * 10 + (c.toNat - '0'.toNat)) 0

/-- `pub struct WakuContentTopic` (general/mod.rs lines 175-181). -/
structure WakuContentTopic where
  application_name : String
  version : Nat
  content_topic_name : String
  encoding : Encoding

/-- The error text of `WakuContentTopic::from_str` (general/mod.rs lines
197-203); the doubled braces of the Rust `format!` string render as literal
braces. -/
def contentTopicErr (s : String) : String :=
  "Wrong pub-sub topic format. Should be `/\x7bapplication-name\x7d/\x7bversion-of-the-application\x7d/\x7bcontent-topic-name\x7d/\x7bencoding\x7d`. Got: " ++ s

/-- `impl FromStr for WakuContentTopic` (general/mod.rs lines 183-205): a
single `scanf!` attempt; any failure — no regex match, or
`Encoding::from_str` rejecting the single-character fourth capture — yields
the one fixed error message. -/
def WakuContentTopic.from_str (s : String) : Result WakuContentTopic :=
  match scanContentTopic s with
  | some (a, d, c, e) =>
      match Encoding.from_str (String.mk [e]) with
      | .ok enc => .ok ⟨a, natOfDigits d, c, enc⟩
      | .error _ => .error (contentTopicErr s)
  | none => .error (contentTopicErr s)

/-- `impl Display for WakuContentTopic` (general/mod.rs lines 207-215). -/
def WakuContentTopic.toString (t : WakuContentTopic) : String :=
  "/" ++ t.application_name ++ "/" ++ t.version.repr ++ "/" ++ t.content_topic_name
    ++ "/" ++ t.encoding.toString

/-- `pub struct WakuPubSubTopic` (general/mod.rs lines 238-242). -/
structure WakuPubSubTopic where
  topic_name : String
  encoding : Encoding

/-- The error text of `WakuPubSubTopic::from_str` (general/mod.rs lines
254-259). -/
def pubSubTopicErr (s : String) : String :=
  "Wrong pub-sub topic format. Should be `/waku/2/\x7btopic-name\x7d/\x7bencoding\x7d`. Got: " ++ s

/-- `scanf!(s, "/waku/v2/{}/{}", String, Encoding)` (general/mod.rs line
248): the literal prefix scanned is `/waku/v2/` — not the `/waku/2/` that
the error message and the `Display` implementation use. -/
def scanPubSubTopic (s : String) : Option (String × Char) :=
  match s.data with
  | '/' :: 'w' :: 'a' :: 'k' :: 'u' :: '/' :: 'v' :: '2' :: '/' :: rest =>
      match scanTail rest with
      | some (c, e) => some (String.mk c, e)
      | none => none
  | _ => none

/-- `impl FromStr for WakuPubSubTopic` (general/mod.rs lines 244-262). -/
def WakuPubSubTopic.from_str (s : String) : Result WakuPubSubTopic :=
  match scanPubSubTopic s with
  | some (c, e) =>
      match Encoding.from_str (String.mk [e]) with
      | .ok enc => .ok ⟨c, enc⟩
      | .error _ => .error (pubSubTopicErr s)
  | none => .error (pubSubTopicErr s)

/-- `impl Display for WakuPubSubTopic` (general/mod.rs lines 264-268). -/
def WakuPubSubTopic.toString (t : WakuPubSubTopic) : String :=
  "/waku/2/" ++ t.topic_name ++ "/" ++ t.encoding.toString

/-- Minimal JSON value model for the serde boundary. -/
inductive Json where
  | null
  | bool (b : Bool)
  | num (n : Int)
  | str (s : String)
  | arr (elems : List Json)
  | obj (fields : List (String × Json))

/-- `pub(crate) enum JsonResponse<T> { Result(T), Error(String) }`
(general/mod.rs lines 19-24). -/
inductive JsonResponse (T : Type) where
  | result (t : T)
  | error (msg : String)

/-- `impl<T> From<JsonResponse<T>> for Result<T>` (general/mod.rs lines
30-37). -/
def JsonResponse.toResult {T : Type} : JsonResponse T → Result T
  | .result t => .ok t
  | .error e => .error e

/-- Serde's externally tagged decoding of the derived
`#[derive(Deserialize)] #[serde(rename_all = "snake_case")]` enum
`JsonResponse` (general/mod.rs lines 19-24): a JSON map with the single
variant key `result` (whose value decodes via `decodeT`) or `error` (whose
value must be a string); any other payload shape is a decode error. -/
def decodeJsonResponse {T : Type} (decodeT : Json → Result T) : Json → Result (JsonResponse T)
  | .obj [(k, v)] =>
      if k = "result" then (decodeT v).map JsonResponse.result
      else if k = "error" then
        match v with
        | .str m => .ok (.error m)
        | _ => .error "invalid type: expected a string"
      else .error ("unknown variant `" ++ k ++ "`, expected `result` or `error`")
  | _ => .error "invalid payload: expected a map with a single variant key"

/-- Whether a payload has the `\x7b"result": …\x7d` or `\x7b"error": …\x7d`
shape that serde's externally tagged enum decoding dispatches on. -/
def matchesResponseTag : Json → Bool
  | .obj [(k, _)] => k == "result" || k == "error"
  | _ => false

/-- `impl Serialize for WakuContentTopic` (general/mod.rs lines 217-224):
serialize `self.to_string()`. -/
def WakuContentTopic.serialize (t : WakuContentTopic) : Json :=
  .str t.toString

/-- `impl Deserialize for WakuContentTopic` (general/mod.rs lines 226-236):
deserialize a `String`, then `parse::<WakuContentTopic>()`, mapping the
parse error through `D::Error::custom`. -/
def WakuContentTopic.deserialize : Json → Result WakuContentTopic
  | .str s => WakuContentTopic.from_str s
  | _ => .error "invalid type: expected a string"

/-- `impl Serialize for WakuPubSubTopic` (general/mod.rs lines 270-277). -/
def WakuPubSubTopic.serialize (t : WakuPubSubTopic) : Json :=
  .str t.toString

/-- `impl Deserialize for WakuPubSubTopic` (general/mod.rs lines 279-289). -/
def WakuPubSubTopic.deserialize : Json → Result WakuPubSubTopic
  | .str s => WakuPubSubTopic.from_str s
  | _ => .error "invalid type: expected a string"

/-- `pub struct WakuMessage` (general/mod.rs lines 41-51): payload bytes, a
content topic, a version and a timestamp, camelCase field names on the
wire. -/
structure WakuMessage where
  payload : List Nat
  content_topic : WakuContentTopic
  version : Nat
  timestamp : Nat

/-- Decode a JSON number as an unsigned integer (`usize` field). -/
def decodeNat : Json → Result Nat
  | .num n => if 0 ≤ n then .ok n.toNat else .error "invalid value: negative integer"
  | _ => .error "invalid type: expected an unsigned integer"

/-- Decode a JSON number as one payload byte (`u8`). -/
def decodeByte : Json → Result Nat
  | .num n => if 0 ≤ n ∧ n < 256 then .ok n.toNat else .error "invalid value: out of range for u8"
  | _ => .error "invalid type: expected a byte"

/-- Decode a JSON array as a payload byte sequence (`Box<[u8]>`). -/
def decodeBytes : Json → Result (List Nat)
  | .arr xs => xs.mapM decodeByte
  | _ => .error "invalid type: expected a sequence"

/-- Look a struct field up in a decoded JSON map and decode it; a missing
field is a decode error (no serde default is derived for `WakuMessage`). -/
def jsonField {T : Type} (fields : List (String × Json)) (k : String)
    (dec : Json → Result T) : Result T :=
  match fields.lookup k with
  | some v => dec v
  | none => .error ("missing field `" ++ k ++ "`")

/-- The derived `Deserialize for WakuMessage` (general/mod.rs lines 41-51),
modelled as field-wise decoding of a JSON map: the first failing field
decode fails the whole message decode. -/
def WakuMessage.deserialize : Json → Result WakuMessage
  | .obj fields =>
      (jsonField fields "payload" decodeBytes).bind fun p =>
      (jsonField fields "contentTopic" WakuContentTopic.deserialize).bind fun ct =>
      (jsonField fields "version" decodeNat).bind fun v =>
      (jsonField fields "timestamp" decodeNat).map fun ts =>
      ⟨p, ct, v, ts⟩
  | _ => .error "invalid type: expected a map"

/-- The two marker states of `WakuNodeHandle<State>` (node/mod.rs lines
25-35); `Uninitialized`/`Stopped` have no handle type in the source — no
handle value exists in those states. -/
inductive NodeState where
  | Initialized
  | Running
deriving DecidableEq

/-- The methods of `WakuNodeHandle` (node/mod.rs lines 46-215). -/
inductive NodeOp where
  | peer_id
  | listen_addresses
  | add_peer
  | start
  | stop
  | connect_peer_with_address
  | connect_peer_with_id
  | disconnect_peer_with_id
  | peer_count
  | peers
  | relay_publish_message
  | relay_publish_encrypt_asymmetric
  | relay_publish_encrypt_symmetric
  | relay_enough_peers
  | relay_subscribe
  | relay_unsubscribe
deriving DecidableEq

/-- `true` on `NodeState.Running` only. -/
def isRunning : NodeState → Bool
  | .Running => true
  | .Initialized => false

/-- Which handle state offers each method, read off the three impl blocks
of node/mod.rs: `impl<State: WakuNodeState> WakuNodeHandle<State>` (lines
46-67: `peer_id`, `listen_addresses`, `add_peer` — available in every
state), `impl WakuNodeHandle<Initialized>` (lines 77-91: `start`, `stop`),
and `impl WakuNodeHandle<Running>` (lines 93-215: `stop` and the peer and
relay operations).  A `false` entry means the method does not exist on that
handle type, so the call is rejected at compile time and no native call can
be made through it. -/
def availableOn (st : NodeState) : NodeOp → Bool
  | .peer_id => true
  | .listen_addresses => true
  | .add_peer => true
  | .start => !isRunning st
  | .stop => true
  | .connect_peer_with_address => isRunning st
  | .connect_peer_with_id => isRunning st
  | .disconnect_peer_with_id => isRunning st
  | .peer_count => isRunning st
  | .peers => isRunning st
  | .relay_publish_message => isRunning st
  | .relay_publish_encrypt_asymmetric => isRunning st
  | .relay_publish_encrypt_symmetric => isRunning st
  | .relay_enough_peers => isRunning st
  | .relay_subscribe => isRunning st
  | .relay_unsubscribe => isRunning st

/-- Outcome of a `waku_new` call: the returned result (the handle the real
function returns carries no data, so `Unit` stands for it), the value of
the `WAKU_NODE_INITIALIZED` flag after the call, and whether the native
constructor `management::waku_new` was invoked. -/
structure NewOutcome where
  result : Result Unit
  guard : Bool
  native_called : Bool

/-- `pub fn waku_new` (node/mod.rs lines 219-228), with the locked value of
the `WAKU_NODE_INITIALIZED` flag (node/mod.rs line 23) and the native
constructor's outcome as explicit inputs: if the flag is set, return the
`AlreadyRunning` error at once — the flag untouched, the native engine
never called; otherwise set the flag and return the native constructor's
outcome.  Note the flag is not reset when the native constructor fails
(`.map` only touches the success case). -/
def waku_new (guard : Bool) (native : Result Unit) : NewOutcome :=
  if guard then
    { result := .error "Waku node is already initialized"
      guard := guard
      native_called := false }
  else
    { result := native, guard := true, native_called := true }

/-- `fn stop_node` (node/mod.rs lines 69-75), reached by `stop` on both an
`Initialized` and a `Running` handle: it locks the flag, sets it to `false`
unconditionally — before the native `management::waku_stop()` call, and
regardless of that call's outcome — and returns the native outcome.  The
first component is the returned result, the second the flag after the
call. -/
def stop_node (_guard : Bool) (nativeStop : Result Unit) : Result Unit × Bool :=
  (nativeStop, false)

/-! ## Helper lemmas -/

/-- A one-character string is none of the three encoding tokens, so
`Encoding::from_str` rejects every single-character capture that the `\w`
regex of `RegexRepresentation for Encoding` can produce. -/
theorem encoding_from_str_single (c : Char) :
    Encoding.from_str (String.mk [c]) =
      .error ("Unrecognized encoding: " ++ toLowerStr (String.mk [c])) := by
  have hlen : ∀ t : String, t.data.length ≠ 1 → toLowerStr (String.mk [c]) ≠ t := by
    intro t ht h
    apply ht
    rw [← h]
    rfl
  unfold Encoding.from_str
  rw [if_neg (hlen "proto" (by decide)), if_neg (hlen "rlp" (by decide)),
    if_neg (hlen "rfc26" (by decide))]

/-- Every content-topic parse fails with the fixed format error: either the
regex `^/(.+?)/(\d+)/(.+?)/(\w)$` does not match at all, or its fourth
capture is a single character that `Encoding::from_str` rejects. -/
theorem content_from_str_err (s : String) :
    WakuContentTopic.from_str s = .error (contentTopicErr s) := by
  unfold WakuContentTopic.from_str
  cases h : scanContentTopic s with
  | none => rfl
  | some x =>
      obtain ⟨a, d, c, e⟩ := x
      simp only [encoding_from_str_single]

/-- Every pub/sub-topic parse fails with the fixed format error, for the
same reason. -/
theorem pubsub_from_str_err (s : String) :
    WakuPubSubTopic.from_str s = .error (pubSubTopicErr s) := by
  unfold WakuPubSubTopic.from_str
  cases h : scanPubSubTopic s with
  | none => rfl
  | some x =>
      obtain ⟨c, e⟩ := x
      simp only [encoding_from_str_single]

/-- Modelled from the spec: the body of `peers::waku_connect_peer_with_address`
(src/waku/src/node/peers.rs) is not among the repository files under src/;
only its caller `WakuNodeHandle::connect_peer_with_address`
(node/mod.rs lines 101-113) and that caller's doc comment are.  Per the spec
and that doc comment, the caller-supplied timeout in milliseconds is clamped
to `i32::MAX` when it does not fit into an `i32`, and `0` is passed through
unchanged, meaning no timeout. -/
def connect_timeout_millis (ms : Nat) : Int :=
  min (ms : Int) 2147483647

/-! ## The claims -/

/-- Claim C1: a `waku_new` call that finds the `WAKU_NODE_INITIALIZED`
guard set returns the `AlreadyRunning` error deterministically, with the
guard unchanged and the native constructor never invoked; a call that finds
the guard clear sets it and proceeds to the native constructor. -/
theorem waku_new_guard_first :
    (∀ native : Result Unit,
      waku_new true native =
        { result := .error "Waku node is already initialized"
          guard := true
          native_called := false })
    ∧ (∀ native : Result Unit,
      (waku_new false native).guard = true ∧ (waku_new false native).native_called = true) :=
  ⟨fun _ => rfl, fun _ => ⟨rfl, rfl⟩⟩

/-- Claim C2 (code bug): the canonical four-segment content-topic string
`"/myapp/1/chat/proto"` — the very string `Display` produces for the
claimed parse result — fails to parse; indeed every content-topic parse
fails, because `Encoding`'s scanf regex `\w` matches exactly one character
and `Encoding::from_str` accepts no one-character token. -/
theorem content_topic_parse_fails_on_valid_input :
    WakuContentTopic.from_str "/myapp/1/chat/proto" =
        .error (contentTopicErr "/myapp/1/chat/proto")
    ∧ WakuContentTopic.toString ⟨"myapp", 1, "chat", .Proto⟩ = "/myapp/1/chat/proto"
    ∧ ∀ s : String, WakuContentTopic.from_str s = .error (contentTopicErr s) :=
  ⟨content_from_str_err _, rfl, content_from_str_err⟩

/-- Claim C3 (code bug): parsing the canonical pub/sub-topic string
`"/waku/2/default-waku/proto"` fails (the scanned literal is `/waku/v2/`,
and the single-character encoding capture can never satisfy
`Encoding::from_str`), even though `Display` produces exactly that string;
`"/waku/1/default-waku/proto"` also fails; indeed every pub/sub-topic
parse fails. -/
theorem pubsub_topic_parse_fails_on_canonical_input :
    WakuPubSubTopic.from_str "/waku/2/default-waku/proto" =
        .error (pubSubTopicErr "/waku/2/default-waku/proto")
    ∧ WakuPubSubTopic.from_str "/waku/1/default-waku/proto" =
        .error (pubSubTopicErr "/waku/1/default-waku/proto")
    ∧ WakuPubSubTopic.toString ⟨"default-waku", .Proto⟩ = "/waku/2/default-waku/proto"
    ∧ ∀ s : String, WakuPubSubTopic.from_str s = .error (pubSubTopicErr s) :=
  ⟨pubsub_from_str_err _, pubsub_from_str_err _, rfl, pubsub_from_str_err⟩

/-- Claim C4 counterexample: `peer_id`, `listen_addresses` and `add_peer`
sit in the state-generic impl block, so they are callable on a handle still
in the `Initialized` state — the claim says every one of the listed
operations is rejected there. -/
theorem initialized_handle_offers_peer_ops :
    availableOn NodeState.Initialized NodeOp.peer_id = true
    ∧ availableOn NodeState.Initialized NodeOp.listen_addresses = true
    ∧ availableOn NodeState.Initialized NodeOp.add_peer = true :=
  ⟨rfl, rfl, rfl⟩

/-- Claim C4 as amended: the connect, disconnect, peer-count, list-peers
and relay operations are offered by the `Running` impl block only — on an
`Initialized` handle they do not exist, so the call is rejected statically,
without any native call — while `peer_id`, `listen_addresses` and
`add_peer` are callable on a handle in either state, and `stop` on both. -/
theorem handle_method_availability :
    (∀ op : NodeOp, availableOn NodeState.Initialized op = true ↔
      (op = NodeOp.peer_id ∨ op = NodeOp.listen_addresses ∨ op = NodeOp.add_peer
        ∨ op = NodeOp.start ∨ op = NodeOp.stop))
    ∧ (∀ op : NodeOp, availableOn NodeState.Running op = true ↔ op ≠ NodeOp.start) := by
  constructor <;> intro op <;> cases op <;> simp [availableOn, isRunning]

/-- Claim C5: `stop` — reachable from both an `Initialized` and a `Running`
handle — clears the singleton guard unconditionally, whatever the native
stop call returns, so a subsequent `waku_new` finds the guard clear, makes
the native call, and succeeds when the native constructor does. -/
theorem stop_releases_guard_unconditionally :
    (availableOn NodeState.Initialized NodeOp.stop = true)
    ∧ (availableOn NodeState.Running NodeOp.stop = true)
    ∧ (∀ (g : Bool) (nativeStop : Result Unit),
        (stop_node g nativeStop).2 = false
        ∧ (stop_node g nativeStop).1 = nativeStop
        ∧ (waku_new (stop_node g nativeStop).2 (.ok ())).result = .ok ()
        ∧ (waku_new (stop_node g nativeStop).2 (.ok ())).native_called = true) :=
  ⟨rfl, rfl, fun _ _ => ⟨rfl, rfl, rfl, rfl⟩⟩

/-- Claim C6 counterexample: when `waku_new` wins the guard and the native
constructor then fails, the guard is left set — not cleared as the claim
states — so the next `waku_new` fails with the `AlreadyRunning` error
instead of succeeding. -/
theorem waku_new_keeps_guard_on_native_failure :
    (waku_new false (.error "nwaku instantiation failed")).guard = true
    ∧ (waku_new (waku_new false (.error "nwaku instantiation failed")).guard
          (.ok ())).result = .error "Waku node is already initialized" :=
  ⟨rfl, rfl⟩

/-- Claim C6 as amended: if `waku_new` wins the guard and the native
constructor fails, the native error is surfaced but the guard remains set,
so a later `waku_new` fails with `AlreadyRunning` until a `stop` clears the
guard. -/
theorem waku_new_native_failure_guard_held :
    ∀ msg : String,
      (waku_new false (.error msg)).result = .error msg
      ∧ (waku_new false (.error msg)).guard = true
      ∧ (waku_new (waku_new false (.error msg)).guard (.ok ())).result =
          .error "Waku node is already initialized"
      ∧ (waku_new (stop_node (waku_new false (.error msg)).guard (.ok ())).2
            (.ok ())).result = .ok () :=
  fun _ => ⟨rfl, rfl, rfl, rfl⟩

/-- Claim C7: converting a native tagged response maps `Result(t)` to
success carrying `t` unchanged and `Error(m)` to failure carrying `m`
verbatim, and a payload matching neither the `result` nor the `error` tag
shape decodes to an error, never to a success value. -/
theorem json_response_adapter :
    (∀ (T : Type) (t : T), JsonResponse.toResult (JsonResponse.result t) = .ok t)
    ∧ (∀ (T : Type) (m : String),
        JsonResponse.toResult (JsonResponse.error m : JsonResponse T) = .error m)
    ∧ (∀ (T : Type) (decodeT : Json → Result T) (j : Json),
        matchesResponseTag j = false → ∃ m, decodeJsonResponse decodeT j = .error m) := by
  refine ⟨fun T t => rfl, fun T m => rfl, fun T decodeT j h => ?_⟩
  cases j with
  | obj fields =>
      match fields with
      | [] => exact ⟨_, rfl⟩
      | (k, v) :: [] =>
          simp only [matchesResponseTag, Bool.or_eq_false_iff, beq_eq_false_iff_ne, ne_eq] at h
          exact ⟨"unknown variant `" ++ k ++ "`, expected `result` or `error`",
            by simp [decodeJsonResponse, h.1, h.2]⟩
      | (k, v) :: x :: rest => exact ⟨_, rfl⟩
  | null => exact ⟨_, rfl⟩
  | bool b => exact ⟨_, rfl⟩
  | num n => exact ⟨_, rfl⟩
  | str s => exact ⟨_, rfl⟩
  | arr xs => exact ⟨_, rfl⟩

/-- Claim C8: an encoding token parses successfully exactly when its
lowercase form is one of the three canonical tokens, formatting always
emits the lowercase canonical token (which parses back to the same value),
and in particular `"PROTO"` parses to `Proto`, which formats as
`"proto"`. -/
theorem encoding_parse_format :
    (∀ s : String, (∃ e, Encoding.from_str s = .ok e) ↔
      (toLowerStr s = "proto" ∨ toLowerStr s = "rlp" ∨ toLowerStr s = "rfc26"))
    ∧ (∀ e : Encoding, toLowerStr (Encoding.toString e) = Encoding.toString e
        ∧ Encoding.from_str (Encoding.toString e) = .ok e)
    ∧ Encoding.from_str "PROTO" = .ok .Proto
    ∧ Encoding.toString .Proto = "proto" := by
  refine ⟨fun s => ?_, fun e => ?_, ?_, ?_⟩
  · unfold Encoding.from_str
    split_ifs with h1 h2 h3
    · exact iff_of_true ⟨.Proto, rfl⟩ (Or.inl h1)
    · exact iff_of_true ⟨.Rlp, rfl⟩ (Or.inr (Or.inl h2))
    · exact iff_of_true ⟨.Rfc26, rfl⟩ (Or.inr (Or.inr h3))
    · refine iff_of_false ?_ (by simp [h1, h2, h3])
      rintro ⟨e, he⟩
      exact he.elim
  · cases e <;> exact ⟨rfl, rfl⟩
  · rfl
  · rfl

/-- Claim C9 (spec-modelled): a caller-supplied connect timeout in
milliseconds exceeding the maximum representable signed 32-bit value is
clamped to that maximum, never an error, and a timeout of 0 is passed
through unchanged. -/
theorem connect_timeout_clamping :
    (∀ ms : Nat, 2147483647 < (ms : Int) → connect_timeout_millis ms = 2147483647)
    ∧ (∀ ms : Nat, (ms : Int) ≤ 2147483647 → connect_timeout_millis ms = (ms : Int))
    ∧ connect_timeout_millis 5000000000 = 2147483647
    ∧ connect_timeout_millis 0 = 0 := by
  refine ⟨fun ms h => ?_, fun ms h => ?_, ?_, ?_⟩
  · unfold connect_timeout_millis; omega
  · unfold connect_timeout_millis; omega
  · unfold connect_timeout_millis; norm_num
  · rfl

/-- Claim C10: JSON serialization of either topic type is exactly the
`Display` string, deserialization of either topic type applies exactly the
`FromStr` parser to a JSON string (anything else is a type error), and a
`WakuMessage` whose `contentTopic` field holds a string the grammar rejects
fails the whole message decode rather than yielding a default. -/
theorem topic_serde_matches_display_and_parse :
    (∀ t : WakuContentTopic, WakuContentTopic.serialize t = Json.str (WakuContentTopic.toString t))
    ∧ (∀ t : WakuPubSubTopic, WakuPubSubTopic.serialize t = Json.str (WakuPubSubTopic.toString t))
    ∧ (∀ s : String, WakuContentTopic.deserialize (Json.str s) = WakuContentTopic.from_str s)
    ∧ (∀ s : String, WakuPubSubTopic.deserialize (Json.str s) = WakuPubSubTopic.from_str s)
    ∧ (∀ (fields : List (String × Json)) (s : String),
        fields.lookup "contentTopic" = some (Json.str s) →
        (∃ e, WakuContentTopic.from_str s = .error e) →
        ∃ m, WakuMessage.deserialize (Json.obj fields) = .error m) := by
  refine ⟨fun t => rfl, fun t => rfl, fun s => rfl, fun s => rfl, ?_⟩
  rintro fields s hlook ⟨e, he⟩
  cases hp : jsonField fields "payload" decodeBytes with
  | error m => exact ⟨m, by simp [WakuMessage.deserialize, hp, Except.bind]⟩
  | ok p =>
      have hct : jsonField fields "contentTopic" WakuContentTopic.deserialize = .error e := by
        simp [jsonField, hlook, WakuContentTopic.deserialize, he]
      exact ⟨e, by simp [WakuMessage.deserialize, hp, hct, Except.bind]⟩

end Waku
